import Mathlib

/-!
Verification of the persona persistence model and the generation request
lifecycle of the chatterbox-webui application (src/app.py).

The persistent state is modelled as an association-list filesystem rooted at
the personas directory (PERSONAS_DIR, app.py line 12): the root is either
absent or a list of named entries, each entry being a directory (a list of
named files) or a plain file.  Persona names act as atomic directory keys
(the spec requires them to be filesystem safe).  Files outside the root
(candidate reference audio clips) live in a separate path-to-bytes map.

Numeric parameter values (Python floats) are modelled as rationals: every
operation in app.py either passes them through unchanged or compares for
presence, so no property here depends on binary floating point rounding.
JSON round-tripping through config.json is modelled by storing the written
key-value record directly, since json.dump followed by json.load is the
identity on such records.

The synthesis collaborator (model.generate, app.py line 40) is an oracle
function supplied as an argument; generate_audio additionally returns the
number of collaborator invocations it performed, so that claims about the
collaborator never or exactly once being invoked are expressible.
-/

/-- Raw file contents, a sequence of bytes. -/
abbrev Bytes := List Nat

/-- A JSON scalar as it appears in a persona config record: app.py only ever
writes numbers and one string there, and load passes values through untyped. -/
inductive JVal
  | num (q : Rat)
  | str (s : String)
deriving DecidableEq, Repr

/-- A flat JSON object, in insertion order, as written by json.dump. -/
abbrev JObj := List (String × JVal)

/-- Contents of one file: raw bytes (audio) or a parsed JSON record
(config.json written via json.dump). -/
inductive FileData
  | bytes (b : Bytes)
  | json (o : JObj)
deriving DecidableEq, Repr

/-- One entry of the personas root directory: a subdirectory with its files,
or a non-directory entry. -/
inductive Entry
  | dir (files : List (String × FileData))
  | file (d : FileData)
deriving DecidableEq, Repr

/-- Whether a root entry is an actual directory (os.path.isdir, app.py line 67). -/
def Entry.isDir : Entry → Bool
  | .dir _ => true
  | .file _ => false

/-- The filesystem state seen by the app: the personas root (none when the
directory is absent) and the files outside it, addressed by path. -/
structure FS where
  root? : Option (List (String × Entry))
  src : List (String × Bytes)
deriving DecidableEq, Repr

/-- First-match association lookup, the model of name resolution inside a
directory listing. -/
def lookupA {α : Type} : List (String × α) → String → Option α
  | [], _ => none
  | (k, v) :: rest, key => if k = key then some v else lookupA rest key

/-- Write under a key: replace the existing binding, else append.  Models
creating or overwriting a file or subdirectory. -/
def setA {α : Type} : List (String × α) → String → α → List (String × α)
  | [], key, v => [(key, v)]
  | (k, w) :: rest, key, v =>
    if k = key then (key, v) :: rest else (k, w) :: setA rest key v

/-- A path of the form os.path.join(PERSONAS_DIR, persona, filename), the only
shape of path the app ever hands back for persona audio. -/
structure RefPath where
  persona : String
  filename : String
deriving DecidableEq, Repr

/-- Read a file under the personas root. -/
def FS.readFile (fs : FS) (p : RefPath) : Option FileData :=
  match lookupA (fs.root?.getD []) p.persona with
  | some (.dir files) => lookupA files p.filename
  | _ => none

/-- The config.json record currently stored for a persona, if any. -/
def configOf (fs : FS) (name : String) : Option FileData :=
  fs.readFile ⟨name, "config.json"⟩

/-- Whether os.path.exists(os.path.join(PERSONAS_DIR, name, "config.json"))
holds (app.py line 121). -/
def configExists (fs : FS) (name : String) : Bool :=
  match lookupA (fs.root?.getD []) name with
  | some (.dir files) => (lookupA files "config.json").isSome
  | _ => false

/-- The errors app.py can surface.  In the source every raise is a gr.Error;
the constructors tag the raise sites following the error taxonomy of the
spec: validation for missing user input (lines 34, 83, 85), notFound for a
missing persona config (line 122), generation for a wrapped collaborator
failure (line 60), fsError for propagated OS-level failures. -/
inductive AppError
  | validation (msg : String)
  | notFound (msg : String)
  | generation (msg : String)
  | fsError (msg : String)
deriving DecidableEq, Repr

/-- The six-field generation parameter set, as delivered by the sliders. -/
structure Params where
  repetition_penalty : Rat
  min_p : Rat
  top_p : Rat
  exaggeration : Rat
  cfg_weight : Rat
  temperature : Rat
deriving DecidableEq, Repr

/-- The six values as load_persona returns them: raw JSON values taken from
the config record with no coercion (app.py lines 131 to 136). -/
structure RawParams where
  repetition_penalty : JVal
  min_p : JVal
  top_p : JVal
  exaggeration : JVal
  cfg_weight : JVal
  temperature : JVal
deriving DecidableEq, Repr

/-- A numeric parameter set viewed as the raw values save_persona stores for
it (float coercion on already numeric slider values is the identity). -/
def Params.toRaw (p : Params) : RawParams :=
  ⟨.num p.repetition_penalty, .num p.min_p, .num p.top_p,
   .num p.exaggeration, .num p.cfg_weight, .num p.temperature⟩

/-- The basename of a posix path: the characters after the last slash. -/
def pyBasename (cs : List Char) : List Char :=
  (cs.reverse.takeWhile (fun c => c != '/')).reverse

/-- The extension part of os.path.splitext restricted to a basename: the
suffix from the last dot, unless every character before that dot is itself a
dot (so ".bashrc" has no extension), in which case empty. -/
def extOfBase (base : List Char) : List Char :=
  let afterDotRev := base.reverse.takeWhile (fun c => c != '.')
  if afterDotRev.length = base.length then []
  else
    let stem := base.take (base.length - afterDotRev.length - 1)
    if stem.any (fun c => c != '.') then '.' :: afterDotRev.reverse else []

/-- The extension component of os.path.splitext (app.py line 91). -/
def splitextExt (p : String) : String :=
  String.mk (extOfBase (pyBasename p.data))

/-- The name under which save_persona stores the copied reference audio:
"reference" plus the source extension, falling back to ".wav" when the
source has none (app.py lines 91 to 95). -/
def referenceName (audio_prompt : String) : String :=
  let ext := splitextExt audio_prompt
  "reference" ++ (if ext = "" then ".wav" else ext)

/-- Lexicographic boolean comparison of character lists by code point, the
order Python sorted uses on strings. -/
def charsLe : List Char → List Char → Bool
  | [], _ => true
  | _ :: _, [] => false
  | a :: as, b :: bs =>
    if a.toNat < b.toNat then true
    else if b.toNat < a.toNat then false
    else charsLe as bs

/-- Python string comparison a <= b. -/
def pyStrLe (a b : String) : Bool :=
  charsLe a.data b.data

/-- The names of the root entries that are actual directories, in listing
order: the loop body of get_persona_list (app.py lines 64 to 68). -/
def dirNames (fs : FS) : List String :=
  match fs.root? with
  | none => []
  | some entries => (entries.filter (fun e => e.2.isDir)).map Prod.fst

/-- The sorting relation of Python sorted on strings, as a proposition. -/
def strLeR (a b : String) : Prop :=
  pyStrLe a b = true

/-- The relation strLeR is decidable, so sorting by it is executable. -/
instance strLeR.instDecidable : DecidableRel strLeR :=
  fun _ _ => inferInstanceAs (Decidable (_ = true))

/-- get_persona_list (app.py lines 63 to 69): collect the subdirectory names
of the personas root, empty when the root is absent, and return them sorted. -/
def get_persona_list (fs : FS) : List String :=
  List.insertionSort strLeR (dirNames fs)

/-- The well-formedness invariant of the persona store: every entry of the
root is an actual directory.  All states the operations of app.py themselves
produce satisfy it, since save_persona only ever creates directories under
the root. -/
def wfRoot (fs : FS) : Bool :=
  (fs.root?.getD []).all (fun e => e.2.isDir)

/-- Outcome oracle for the shutil.copy2 I/O in save_persona, covering disk
level failures beyond a missing source: ok means the copy completes, fail
means an OSError after possibly leaving partial bytes at the target. -/
inductive CopyOutcome
  | ok
  | fail (partialBytes : Option Bytes)
deriving DecidableEq, Repr

/-- save_persona (app.py lines 72 to 111) as a state transformer.  Returns
the error raised, if any, together with the filesystem after whatever
mutations happened before the raise.  Validation of name and audio_prompt
comes first; os.makedirs with exist_ok creates or reuses the persona
directory (raising if a non-directory entry holds the name); shutil.copy2
copies the reference audio (raising if the source path does not resolve, or
per the CopyOutcome oracle); only then is config.json written with the six
float fields plus audio_filename. -/
def save_persona (fs : FS) (co : CopyOutcome) (name : String)
    (audio_prompt : Option String) (p : Params) : Option AppError × FS :=
  if name = "" then
    (some (.validation "Please enter a name for the persona."), fs)
  else
    match audio_prompt with
    | none => (some (.validation "Audio prompt is required to save a persona."), fs)
    | some ap =>
      if ap = "" then
        (some (.validation "Audio prompt is required to save a persona."), fs)
      else
        let entries := fs.root?.getD []
        match lookupA entries name with
        | some (.file _) => (some (.fsError "FileExistsError"), fs)
        | e =>
          let files0 := match e with
            | some (.dir fl) => fl
            | _ => []
          let refName := referenceName ap
          match lookupA fs.src ap with
          | none =>
            (some (.fsError "FileNotFoundError"),
             { fs with root? := some (setA entries name (.dir files0)) })
          | some b =>
            match co with
            | .fail pb =>
              let files1 := match pb with
                | none => files0
                | some part => setA files0 refName (.bytes part)
              (some (.fsError "OSError"),
               { fs with root? := some (setA entries name (.dir files1)) })
            | .ok =>
              let files1 := setA files0 refName (.bytes b)
              let cfg : JObj :=
                [("repetition_penalty", .num p.repetition_penalty),
                 ("min_p", .num p.min_p),
                 ("top_p", .num p.top_p),
                 ("exaggeration", .num p.exaggeration),
                 ("cfg_weight", .num p.cfg_weight),
                 ("temperature", .num p.temperature),
                 ("audio_filename", .str refName)]
              let files2 := setA files1 "config.json" (.json cfg)
              (none, { fs with root? := some (setA entries name (.dir files2)) })

/-- What load_persona hands back: the no-update signal ([gr.update()] * 7,
app.py line 116) or the resolved audio path with the six raw values. -/
inductive LoadResult
  | noUpdate
  | loaded (audio_path : RefPath) (vals : RawParams)
deriving DecidableEq, Repr

/-- load_persona (app.py lines 114 to 137).  A falsy name yields the
no-update signal; a missing config file raises the not-found error; otherwise
the record is read and each of the six fields is taken from it with its
documented default when absent, and the stored audio_filename (defaulting to
"reference.wav") is resolved against the persona directory.  A config.json
whose contents are not a JSON record fails in json.load; a non-string
audio_filename value fails in os.path.join. -/
def load_persona (fs : FS) (name? : Option String) : Except AppError LoadResult :=
  match name? with
  | none => .ok .noUpdate
  | some name =>
    if name = "" then .ok .noUpdate
    else
      match lookupA (fs.root?.getD []) name with
      | some (.dir files) =>
        match lookupA files "config.json" with
        | some (.json config) =>
          let vals : RawParams :=
            ⟨(lookupA config "repetition_penalty").getD (.num 1.2),
             (lookupA config "min_p").getD (.num 0.05),
             (lookupA config "top_p").getD (.num 1.0),
             (lookupA config "exaggeration").getD (.num 0.5),
             (lookupA config "cfg_weight").getD (.num 0.5),
             (lookupA config "temperature").getD (.num 0.8)⟩
          match lookupA config "audio_filename" with
          | some (.num _) => .error (.fsError "TypeError")
          | some (.str fn) => .ok (.loaded ⟨name, fn⟩ vals)
          | none => .ok (.loaded ⟨name, "reference.wav"⟩ vals)
        | some (.bytes _) => .error (.fsError "JSONDecodeError")
        | none => .error (.notFound ("Config not found for persona: " ++ name))
      | _ => .error (.notFound ("Config not found for persona: " ++ name))

/-- The synthesis collaborator contract: text, parameters and an optional
reference audio path to a waveform, or a failure message (model.generate,
app.py line 40, treated as opaque). -/
abbrev SynthFn := String → Params → Option String → Except String (List Int)

/-- generate_audio (app.py lines 23 to 60), instrumented with the number of
collaborator invocations.  Empty text raises the validation error before the
collaborator is touched; otherwise the collaborator runs exactly once inside
the try block, any failure being wrapped with the "Generation failed: "
prefix, and on success the waveform lands in the fresh temporary file whose
path tempPath stands for. -/
def generate_audio (synth : SynthFn) (tempPath : String) (text : String)
    (p : Params) (audio_prompt : Option String) :
    Except AppError String × Nat :=
  if text = "" then
    (.error (.validation "Please enter text to generate."), 0)
  else
    match synth text p audio_prompt with
    | .ok _ => (.ok tempPath, 1)
    | .error e => (.error (.generation ("Generation failed: " ++ e)), 1)

/-- Looking up the key just written returns the written value. -/
theorem lookupA_setA_self {α : Type} (l : List (String × α)) (k : String) (v : α) :
    lookupA (setA l k v) k = some v := by
  induction l with
  | nil => simp [setA, lookupA]
  | cons hd t ih =>
    obtain ⟨k0, v0⟩ := hd
    by_cases hk : k0 = k
    · simp [setA, hk, lookupA]
    · simp [setA, hk, lookupA, ih]

/-- Writing under one key leaves lookups of any other key unchanged. -/
theorem lookupA_setA_ne {α : Type} (l : List (String × α)) (k k2 : String) (v : α)
    (h : k ≠ k2) : lookupA (setA l k v) k2 = lookupA l k2 := by
  induction l with
  | nil => simp [setA, lookupA, h]
  | cons hd t ih =>
    obtain ⟨k0, v0⟩ := hd
    by_cases hk : k0 = k
    · subst hk
      simp [setA, lookupA, h]
    · by_cases hk2 : k0 = k2
      · subst hk2
        simp [setA, hk, lookupA]
      · simp [setA, hk, lookupA, hk2, ih]

/-- In a well-formed root listing, any entry that resolves is a directory. -/
theorem lookupA_isDir {entries : List (String × Entry)}
    (hwf : entries.all (fun e => e.2.isDir) = true) (k : String) (e : Entry)
    (h : lookupA entries k = some e) : e.isDir = true := by
  induction entries with
  | nil => simp [lookupA] at h
  | cons hd t ih =>
    obtain ⟨k0, e0⟩ := hd
    simp only [List.all_cons, Bool.and_eq_true] at hwf
    simp only [lookupA] at h
    by_cases hk : k0 = k
    · rw [if_pos hk] at h
      cases h
      exact hwf.1
    · rw [if_neg hk] at h
      exact ih hwf.2 h

/-- The copied audio file name always starts with the letter r. -/
theorem referenceName_head (ap : String) : (referenceName ap).data.head? = some 'r' := by
  unfold referenceName
  rw [String.data_append]
  rfl

/-- The copied audio file never collides with the config file name. -/
theorem referenceName_ne_config (ap : String) : referenceName ap ≠ "config.json" := by
  intro h
  have hh := referenceName_head ap
  rw [h] at hh
  exact absurd hh (by decide)

/-- Distinct numeric parameter sets have distinct raw images. -/
theorem Params.toRaw_inj {p q : Params} (h : p.toRaw = q.toRaw) : p = q := by
  cases p
  cases q
  simp only [Params.toRaw, RawParams.mk.injEq, JVal.num.injEq] at h
  simp [Params.mk.injEq, h]

/-- A predicate true of every binding survives a setA write whose new value
also satisfies it. -/
theorem all_setA {α : Type} (P : String × α → Bool) (l : List (String × α))
    (k : String) (v : α) (hl : l.all P = true) (hv : P (k, v) = true) :
    (setA l k v).all P = true := by
  induction l with
  | nil => simp [setA, hv]
  | cons hd t ih =>
    obtain ⟨k0, v0⟩ := hd
    simp only [List.all_cons, Bool.and_eq_true] at hl
    by_cases hk : k0 = k
    · simp [setA, hk, hv, hl.2]
    · simp [setA, hk, hl.1, ih hl.2]

/-- save_persona never touches the files outside the personas root. -/
theorem save_persona_src (fs : FS) (co : CopyOutcome) (name : String)
    (ap? : Option String) (p : Params) :
    (save_persona fs co name ap? p).2.src = fs.src := by
  simp only [save_persona]
  (repeat' split) <;> rfl

/-- save_persona preserves the store invariant: it only ever writes directory
entries under the root. -/
theorem save_persona_wf (fs : FS) (co : CopyOutcome) (name : String)
    (ap? : Option String) (p : Params) (hwf : wfRoot fs = true) :
    wfRoot (save_persona fs co name ap? p).2 = true := by
  have hwf' : (fs.root?.getD []).all (fun e => e.2.isDir) = true := hwf
  simp only [save_persona]
  (repeat' split) <;>
    first
    | exact hwf
    | (simp only [wfRoot, Option.getD_some]
       exact all_setA _ _ name _ hwf' rfl)

/-- Core round-trip fact: a successful save returns no error, the immediate
load returns the saved parameter set and the reference path, and the file at
that path is a byte-identical copy of the source audio. -/
theorem save_load_aux
    (fs : FS) (name ap : String) (b : Bytes) (p : Params)
    (hname : name ≠ "") (hap : ap ≠ "")
    (hwf : wfRoot fs = true)
    (hsrc : lookupA fs.src ap = some b) :
    (save_persona fs .ok name (some ap) p).1 = none ∧
    load_persona (save_persona fs .ok name (some ap) p).2 (some name) =
      .ok (.loaded ⟨name, referenceName ap⟩ p.toRaw) ∧
    (save_persona fs .ok name (some ap) p).2.readFile ⟨name, referenceName ap⟩ =
      some (.bytes b) := by
  have hne := referenceName_ne_config ap
  have hne2 : ("config.json" : String) ≠ referenceName ap := Ne.symm hne
  rcases hlk : lookupA (fs.root?.getD []) name with _ | e
  · refine ⟨by simp [save_persona, hname, hap, hlk, hsrc], ?_, ?_⟩
    · simp [save_persona, load_persona, hname, hap, hlk, hsrc, hne, lookupA,
        setA, lookupA_setA_self, Params.toRaw]
    · simp [save_persona, FS.readFile, hname, hap, hlk, hsrc, hne, lookupA,
        setA, lookupA_setA_self]
  · have hdir := lookupA_isDir hwf name e hlk
    rcases e with files | d
    · refine ⟨by simp [save_persona, hname, hap, hlk, hsrc], ?_, ?_⟩
      · simp [save_persona, load_persona, hname, hap, hlk, hsrc, hne,
          lookupA_setA_self, lookupA_setA_ne _ _ _ _ hne2, lookupA, Params.toRaw]
      · simp [save_persona, FS.readFile, hname, hap, hlk, hsrc,
          lookupA_setA_self, lookupA_setA_ne _ _ _ _ hne2]
    · simp [Entry.isDir] at hdir

/-- C1: saving a persona with a non-empty name and an existing reference audio
file and then immediately loading it by the same name succeeds, returns a
parameter set equal in all six fields to the one saved, and returns a
reference audio path inside the persona directory holding a byte-identical
copy of the original audio file. -/
theorem c1_save_then_load_roundtrip
    (fs : FS) (name ap : String) (b : Bytes) (p : Params)
    (hname : name ≠ "") (hap : ap ≠ "")
    (hwf : wfRoot fs = true)
    (hsrc : lookupA fs.src ap = some b) :
    (save_persona fs .ok name (some ap) p).1 = none ∧
    load_persona (save_persona fs .ok name (some ap) p).2 (some name) =
      .ok (.loaded ⟨name, referenceName ap⟩ p.toRaw) ∧
    (save_persona fs .ok name (some ap) p).2.readFile ⟨name, referenceName ap⟩ =
      some (.bytes b) :=
  save_load_aux fs name ap b p hname hap hwf hsrc

/-- Witness for C1 at a concrete store, name, audio file and parameter set. -/
theorem c1_save_then_load_roundtrip_witness :
    (("demo" : String) ≠ "" ∧ ("v.wav" : String) ≠ "" ∧
     wfRoot ⟨some [], [("v.wav", [7, 8])]⟩ = true ∧
     lookupA (FS.mk (some []) [("v.wav", [7, 8])]).src "v.wav" = some [7, 8]) ∧
    ((save_persona ⟨some [], [("v.wav", [7, 8])]⟩ .ok "demo" (some "v.wav")
        ⟨1.2, 0.05, 1.0, 0.5, 0.5, 0.8⟩).1 = none ∧
     load_persona (save_persona ⟨some [], [("v.wav", [7, 8])]⟩ .ok "demo"
        (some "v.wav") ⟨1.2, 0.05, 1.0, 0.5, 0.5, 0.8⟩).2 (some "demo") =
       .ok (.loaded ⟨"demo", referenceName "v.wav"⟩
         (Params.toRaw ⟨1.2, 0.05, 1.0, 0.5, 0.5, 0.8⟩)) ∧
     (save_persona ⟨some [], [("v.wav", [7, 8])]⟩ .ok "demo" (some "v.wav")
        ⟨1.2, 0.05, 1.0, 0.5, 0.5, 0.8⟩).2.readFile ⟨"demo", referenceName "v.wav"⟩ =
       some (.bytes [7, 8])) :=
  ⟨⟨by decide, by decide, by decide, by decide⟩,
   c1_save_then_load_roundtrip ⟨some [], [("v.wav", [7, 8])]⟩ "demo" "v.wav"
     [7, 8] ⟨1.2, 0.05, 1.0, 0.5, 0.5, 0.8⟩
     (by decide) (by decide) (by decide) (by decide)⟩

/-- C2: saving a name that already exists silently overwrites its audio and
config, so loading the name after two saves returns the second parameter set
and never the first one. -/
theorem c2_resave_overwrites
    (fs : FS) (name ap1 ap2 : String) (b1 b2 : Bytes) (p1 p2 : Params)
    (hname : name ≠ "") (hap1 : ap1 ≠ "") (hap2 : ap2 ≠ "")
    (hwf : wfRoot fs = true)
    (hs1 : lookupA fs.src ap1 = some b1)
    (hs2 : lookupA fs.src ap2 = some b2)
    (hp : p1 ≠ p2) :
    load_persona (save_persona (save_persona fs .ok name (some ap1) p1).2 .ok
        name (some ap2) p2).2 (some name) =
      .ok (.loaded ⟨name, referenceName ap2⟩ p2.toRaw) ∧
    ∀ path vals,
      load_persona (save_persona (save_persona fs .ok name (some ap1) p1).2 .ok
          name (some ap2) p2).2 (some name) = .ok (.loaded path vals) →
      vals ≠ p1.toRaw := by
  have hwf1 : wfRoot (save_persona fs .ok name (some ap1) p1).2 = true :=
    save_persona_wf fs .ok name (some ap1) p1 hwf
  have hs2' : lookupA (save_persona fs .ok name (some ap1) p1).2.src ap2 = some b2 := by
    rw [save_persona_src]
    exact hs2
  have hload :=
    (save_load_aux (save_persona fs .ok name (some ap1) p1).2 name ap2 b2 p2
      hname hap2 hwf1 hs2').2.1
  refine ⟨hload, ?_⟩
  intro path vals hl
  rw [hload] at hl
  simp only [Except.ok.injEq, LoadResult.loaded.injEq] at hl
  rw [← hl.2]
  intro hcontra
  exact hp (Params.toRaw_inj hcontra).symm

/-- Witness for C2: two saves of the same name with different parameter sets,
the load observes the second set. -/
theorem c2_resave_overwrites_witness :
    (("demo" : String) ≠ "" ∧ ("a.mp3" : String) ≠ "" ∧ ("b.wav" : String) ≠ "" ∧
     wfRoot ⟨none, [("a.mp3", [1]), ("b.wav", [2])]⟩ = true ∧
     lookupA (FS.mk none [("a.mp3", [1]), ("b.wav", [2])]).src "a.mp3" = some [1] ∧
     lookupA (FS.mk none [("a.mp3", [1]), ("b.wav", [2])]).src "b.wav" = some [2] ∧
     (⟨2, 0, 1, 0, 0, 1⟩ : Params) ≠ ⟨1, 0, 1, 0, 0, 1⟩) ∧
    load_persona (save_persona (save_persona ⟨none, [("a.mp3", [1]), ("b.wav", [2])]⟩
        .ok "demo" (some "a.mp3") ⟨2, 0, 1, 0, 0, 1⟩).2 .ok "demo"
        (some "b.wav") ⟨1, 0, 1, 0, 0, 1⟩).2 (some "demo") =
      .ok (.loaded ⟨"demo", referenceName "b.wav"⟩
        (Params.toRaw ⟨1, 0, 1, 0, 0, 1⟩)) :=
  ⟨⟨by decide, by decide, by decide, by decide, by decide, by decide, by decide⟩,
   (c2_resave_overwrites ⟨none, [("a.mp3", [1]), ("b.wav", [2])]⟩ "demo" "a.mp3"
     "b.wav" [1] [2] ⟨2, 0, 1, 0, 0, 1⟩ ⟨1, 0, 1, 0, 0, 1⟩
     (by decide) (by decide) (by decide) (by decide) (by decide) (by decide)
     (by decide)).1⟩

/-- Transitivity of the lexicographic code point comparison. -/
theorem charsLe_trans (a : List Char) : ∀ b c : List Char,
    charsLe a b = true → charsLe b c = true → charsLe a c = true := by
  induction a with
  | nil => intro b c _ _; simp [charsLe]
  | cons x as ih =>
    intro b c hab hbc
    cases b with
    | nil => simp [charsLe] at hab
    | cons y bs =>
      cases c with
      | nil => simp [charsLe] at hbc
      | cons z cs =>
        simp only [charsLe] at hab hbc ⊢
        by_cases hxy : x.toNat < y.toNat
        · by_cases hyz : y.toNat < z.toNat
          · simp [show x.toNat < z.toNat by omega]
          · rw [if_neg hyz] at hbc
            by_cases hzy : z.toNat < y.toNat
            · simp [hzy] at hbc
            · simp [show x.toNat < z.toNat by omega]
        · rw [if_neg hxy] at hab
          by_cases hyx : y.toNat < x.toNat
          · simp [hyx] at hab
          · rw [if_neg hyx] at hab
            by_cases hyz : y.toNat < z.toNat
            · simp [show x.toNat < z.toNat by omega]
            · rw [if_neg hyz] at hbc
              by_cases hzy : z.toNat < y.toNat
              · simp [hzy] at hbc
              · rw [if_neg hzy] at hbc
                rw [if_neg (show ¬x.toNat < z.toNat by omega),
                  if_neg (show ¬z.toNat < x.toNat by omega)]
                exact ih bs cs hab hbc

/-- Totality of the lexicographic code point comparison. -/
theorem charsLe_total (a : List Char) : ∀ b : List Char,
    (charsLe a b || charsLe b a) = true := by
  induction a with
  | nil => intro b; simp [charsLe]
  | cons x as ih =>
    intro b
    cases b with
    | nil => simp [charsLe]
    | cons y bs =>
      simp only [charsLe]
      by_cases hxy : x.toNat < y.toNat
      · simp [hxy]
      · by_cases hyx : y.toNat < x.toNat
        · simp [hyx]
        · rw [if_neg hxy, if_neg hyx, if_neg hyx, if_neg hxy]
          exact ih bs

/-- The comparison relation used by get_persona_list is total. -/
theorem strLeR_total (a b : String) : strLeR a b ∨ strLeR b a := by
  have h := charsLe_total a.data b.data
  rcases Bool.or_eq_true _ _ ▸ h with h1 | h1
  · exact Or.inl h1
  · exact Or.inr h1

/-- The comparison relation used by get_persona_list is transitive. -/
theorem strLeR_trans (a b c : String) (hab : strLeR a b) (hbc : strLeR b c) :
    strLeR a c :=
  charsLe_trans a.data b.data c.data hab hbc

/-- C3: get_persona_list is sorted ascending in the code point order Python
sorted uses, contains exactly the directory entries of the personas root
(regardless of the order they were written in), lists a name exactly when a
directory of that name sits in the root, and is empty, without failing, when
the root is absent or empty. -/
theorem c3_get_persona_list_spec (fs : FS) :
    List.Sorted strLeR (get_persona_list fs) ∧
    (get_persona_list fs).Perm (dirNames fs) ∧
    (∀ n, n ∈ get_persona_list fs ↔
      ∃ entries files, fs.root? = some entries ∧ (n, Entry.dir files) ∈ entries) ∧
    get_persona_list ⟨none, fs.src⟩ = [] ∧
    get_persona_list ⟨some [], fs.src⟩ = [] := by
  refine ⟨@List.sorted_insertionSort String strLeR _ ⟨strLeR_total⟩
      ⟨strLeR_trans⟩ (dirNames fs), List.perm_insertionSort strLeR (dirNames fs),
    ?_, rfl, rfl⟩
  intro n
  unfold get_persona_list
  rw [(List.perm_insertionSort strLeR (dirNames fs)).mem_iff]
  unfold dirNames
  cases hr : fs.root? with
  | none =>
    simp only [List.not_mem_nil, false_iff]
    rintro ⟨entries, files, hcontra, _⟩
    simp at hcontra
  | some entries =>
    simp only [List.mem_map, List.mem_filter, Option.some.injEq]
    constructor
    · rintro ⟨⟨k, e⟩, ⟨hmem, hdir⟩, rfl⟩
      cases e with
      | dir files => exact ⟨entries, files, rfl, hmem⟩
      | file d => simp [Entry.isDir] at hdir
    · rintro ⟨entries2, files, hent, hmem⟩
      subst hent
      exact ⟨(n, Entry.dir files), ⟨hmem, rfl⟩, rfl⟩

/-- Witness for C3 at a concrete root holding directories saved out of order
and one non-directory entry. -/
theorem c3_get_persona_list_spec_witness :
    List.Sorted strLeR (get_persona_list
      ⟨some [("b", .dir []), ("a", .dir []), ("x", .file (.bytes []))], []⟩) ∧
    get_persona_list
      ⟨some [("b", .dir []), ("a", .dir []), ("x", .file (.bytes []))], []⟩ =
      ["a", "b"] :=
  ⟨(c3_get_persona_list_spec
      ⟨some [("b", .dir []), ("a", .dir []), ("x", .file (.bytes []))], []⟩).1,
   by decide⟩

/-- C4: loading a persona whose config record exists but misses some of the
six numeric fields succeeds and substitutes exactly the documented default
for each absent field, while every present field is returned as stored. -/
theorem c4_load_defaults
    (fs : FS) (name : String) (files : List (String × FileData)) (config : JObj)
    (hname : name ≠ "")
    (hdir : lookupA (fs.root?.getD []) name = some (.dir files))
    (hcfg : lookupA files "config.json" = some (.json config))
    (haf : lookupA config "audio_filename" = none ∨
      ∃ s, lookupA config "audio_filename" = some (.str s)) :
    ∃ path vals, load_persona fs (some name) = .ok (.loaded path vals) ∧
      (lookupA config "repetition_penalty" = none → vals.repetition_penalty = .num 1.2) ∧
      (∀ v, lookupA config "repetition_penalty" = some v → vals.repetition_penalty = v) ∧
      (lookupA config "min_p" = none → vals.min_p = .num 0.05) ∧
      (∀ v, lookupA config "min_p" = some v → vals.min_p = v) ∧
      (lookupA config "top_p" = none → vals.top_p = .num 1.0) ∧
      (∀ v, lookupA config "top_p" = some v → vals.top_p = v) ∧
      (lookupA config "exaggeration" = none → vals.exaggeration = .num 0.5) ∧
      (∀ v, lookupA config "exaggeration" = some v → vals.exaggeration = v) ∧
      (lookupA config "cfg_weight" = none → vals.cfg_weight = .num 0.5) ∧
      (∀ v, lookupA config "cfg_weight" = some v → vals.cfg_weight = v) ∧
      (lookupA config "temperature" = none → vals.temperature = .num 0.8) ∧
      (∀ v, lookupA config "temperature" = some v → vals.temperature = v) := by
  have hvals :
      (lookupA config "repetition_penalty" = none →
        ((lookupA config "repetition_penalty").getD (JVal.num 1.2)) = JVal.num 1.2) ∧
      (∀ v, lookupA config "repetition_penalty" = some v →
        ((lookupA config "repetition_penalty").getD (JVal.num 1.2)) = v) ∧
      (lookupA config "min_p" = none →
        ((lookupA config "min_p").getD (JVal.num 0.05)) = JVal.num 0.05) ∧
      (∀ v, lookupA config "min_p" = some v →
        ((lookupA config "min_p").getD (JVal.num 0.05)) = v) ∧
      (lookupA config "top_p" = none →
        ((lookupA config "top_p").getD (JVal.num 1.0)) = JVal.num 1.0) ∧
      (∀ v, lookupA config "top_p" = some v →
        ((lookupA config "top_p").getD (JVal.num 1.0)) = v) ∧
      (lookupA config "exaggeration" = none →
        ((lookupA config "exaggeration").getD (JVal.num 0.5)) = JVal.num 0.5) ∧
      (∀ v, lookupA config "exaggeration" = some v →
        ((lookupA config "exaggeration").getD (JVal.num 0.5)) = v) ∧
      (lookupA config "cfg_weight" = none →
        ((lookupA config "cfg_weight").getD (JVal.num 0.5)) = JVal.num 0.5) ∧
      (∀ v, lookupA config "cfg_weight" = some v →
        ((lookupA config "cfg_weight").getD (JVal.num 0.5)) = v) ∧
      (lookupA config "temperature" = none →
        ((lookupA config "temperature").getD (JVal.num 0.8)) = JVal.num 0.8) ∧
      (∀ v, lookupA config "temperature" = some v →
        ((lookupA config "temperature").getD (JVal.num 0.8)) = v) := by
    refine ⟨?_, ?_, ?_, ?_, ?_, ?_, ?_, ?_, ?_, ?_, ?_, ?_⟩ <;>
      first
      | (intro h; rw [h]; rfl)
      | (intro v h; rw [h]; rfl)
  rcases haf with haf | ⟨s, haf⟩
  · exact ⟨⟨name, "reference.wav"⟩,
      ⟨(lookupA config "repetition_penalty").getD (.num 1.2),
       (lookupA config "min_p").getD (.num 0.05),
       (lookupA config "top_p").getD (.num 1.0),
       (lookupA config "exaggeration").getD (.num 0.5),
       (lookupA config "cfg_weight").getD (.num 0.5),
       (lookupA config "temperature").getD (.num 0.8)⟩,
      by simp [load_persona, hname, hdir, hcfg, haf], hvals⟩
  · exact ⟨⟨name, s⟩,
      ⟨(lookupA config "repetition_penalty").getD (.num 1.2),
       (lookupA config "min_p").getD (.num 0.05),
       (lookupA config "top_p").getD (.num 1.0),
       (lookupA config "exaggeration").getD (.num 0.5),
       (lookupA config "cfg_weight").getD (.num 0.5),
       (lookupA config "temperature").getD (.num 0.8)⟩,
      by simp [load_persona, hname, hdir, hcfg, haf], hvals⟩

/-- Witness for C4: a config record holding only min_p and temperature loads
with the defaults for the other four fields and the stored values for those
two. -/
theorem c4_load_defaults_witness :
    (("p" : String) ≠ "" ∧
     lookupA ((FS.mk (some [("p", Entry.dir
         [("config.json", FileData.json
           [("min_p", JVal.num 2), ("temperature", JVal.num 3)])])]) []).root?.getD []) "p" =
       some (.dir [("config.json", FileData.json
         [("min_p", JVal.num 2), ("temperature", JVal.num 3)])]) ∧
     lookupA [("config.json", FileData.json
         [("min_p", JVal.num 2), ("temperature", JVal.num 3)])] "config.json" =
       some (.json [("min_p", JVal.num 2), ("temperature", JVal.num 3)]) ∧
     lookupA [("min_p", JVal.num 2), ("temperature", JVal.num 3)] "audio_filename" = none) ∧
    (∃ path vals, load_persona
        (FS.mk (some [("p", Entry.dir
          [("config.json", FileData.json
            [("min_p", JVal.num 2), ("temperature", JVal.num 3)])])]) []) (some "p") =
        .ok (.loaded path vals) ∧
      (lookupA [("min_p", JVal.num 2), ("temperature", JVal.num 3)] "repetition_penalty" = none →
        vals.repetition_penalty = .num 1.2) ∧
      (∀ v, lookupA [("min_p", JVal.num 2), ("temperature", JVal.num 3)] "repetition_penalty" = some v →
        vals.repetition_penalty = v) ∧
      (lookupA [("min_p", JVal.num 2), ("temperature", JVal.num 3)] "min_p" = none →
        vals.min_p = .num 0.05) ∧
      (∀ v, lookupA [("min_p", JVal.num 2), ("temperature", JVal.num 3)] "min_p" = some v →
        vals.min_p = v) ∧
      (lookupA [("min_p", JVal.num 2), ("temperature", JVal.num 3)] "top_p" = none →
        vals.top_p = .num 1.0) ∧
      (∀ v, lookupA [("min_p", JVal.num 2), ("temperature", JVal.num 3)] "top_p" = some v →
        vals.top_p = v) ∧
      (lookupA [("min_p", JVal.num 2), ("temperature", JVal.num 3)] "exaggeration" = none →
        vals.exaggeration = .num 0.5) ∧
      (∀ v, lookupA [("min_p", JVal.num 2), ("temperature", JVal.num 3)] "exaggeration" = some v →
        vals.exaggeration = v) ∧
      (lookupA [("min_p", JVal.num 2), ("temperature", JVal.num 3)] "cfg_weight" = none →
        vals.cfg_weight = .num 0.5) ∧
      (∀ v, lookupA [("min_p", JVal.num 2), ("temperature", JVal.num 3)] "cfg_weight" = some v →
        vals.cfg_weight = v) ∧
      (lookupA [("min_p", JVal.num 2), ("temperature", JVal.num 3)] "temperature" = none →
        vals.temperature = .num 0.8) ∧
      (∀ v, lookupA [("min_p", JVal.num 2), ("temperature", JVal.num 3)] "temperature" = some v →
        vals.temperature = v)) :=
  ⟨⟨by decide, by decide, by decide, by decide⟩,
   c4_load_defaults
     (FS.mk (some [("p", Entry.dir
       [("config.json", FileData.json
         [("min_p", JVal.num 2), ("temperature", JVal.num 3)])])]) []) "p"
     [("config.json", FileData.json [("min_p", JVal.num 2), ("temperature", JVal.num 3)])]
     [("min_p", JVal.num 2), ("temperature", JVal.num 3)]
     (by decide) (by decide) (by decide) (Or.inl (by decide))⟩

/-- C5: generating with empty text raises the validation error and never
invokes the synthesis collaborator; with non-empty text the validation check
passes and the collaborator is invoked. -/
theorem c5_empty_text_validation (synth : SynthFn) (tempPath text : String)
    (p : Params) (ap : Option String) :
    (text = "" → generate_audio synth tempPath text p ap =
      (.error (.validation "Please enter text to generate."), 0)) ∧
    (text ≠ "" → (generate_audio synth tempPath text p ap).2 = 1) := by
  constructor
  · intro h
    simp [generate_audio, h]
  · intro h
    simp only [generate_audio, h, reduceIte]
    rcases synth text p ap with w | e <;> rfl

/-- Witness for C5 with a concrete collaborator: empty text yields the
validation error with zero collaborator calls, non-empty text one call. -/
theorem c5_empty_text_validation_witness :
    (generate_audio (fun _ _ _ => .ok []) "t" "" ⟨1, 1, 1, 1, 1, 1⟩ none =
      (.error (.validation "Please enter text to generate."), 0)) ∧
    (("hi" : String) ≠ "" ∧
     (generate_audio (fun _ _ _ => .ok []) "t" "hi" ⟨1, 1, 1, 1, 1, 1⟩ none).2 = 1) :=
  ⟨(c5_empty_text_validation (fun _ _ _ => .ok []) "t" "" ⟨1, 1, 1, 1, 1, 1⟩ none).1 rfl,
   by decide,
   (c5_empty_text_validation (fun _ _ _ => .ok []) "t" "hi" ⟨1, 1, 1, 1, 1, 1⟩ none).2
     (by decide)⟩

/-- C6: with non-empty text, a failing collaborator makes generate_audio
re-raise a generation error carrying the collaborator message, after exactly
one collaborator invocation. -/
theorem c6_generation_error_wraps (synth : SynthFn) (tempPath text : String)
    (p : Params) (ap : Option String) (msg : String)
    (htext : text ≠ "") (hs : synth text p ap = .error msg) :
    generate_audio synth tempPath text p ap =
      (.error (.generation ("Generation failed: " ++ msg)), 1) := by
  simp [generate_audio, htext, hs]

/-- Witness for C6 with a collaborator that always fails with message boom. -/
theorem c6_generation_error_wraps_witness :
    (("x" : String) ≠ "" ∧
     (fun (_ : String) (_ : Params) (_ : Option String) =>
       (Except.error "boom" : Except String (List Int))) "x" ⟨1, 1, 1, 1, 1, 1⟩ none =
       .error "boom") ∧
    generate_audio (fun _ _ _ => .error "boom") "t" "x" ⟨1, 1, 1, 1, 1, 1⟩ none =
      (.error (.generation ("Generation failed: " ++ "boom")), 1) :=
  ⟨⟨by decide, rfl⟩,
   c6_generation_error_wraps (fun _ _ _ => .error "boom") "t" "x" ⟨1, 1, 1, 1, 1, 1⟩
     none "boom" (by decide) rfl⟩

/-- C7: loading a non-empty name for which no config file exists raises the
not-found error and returns nothing else. -/
theorem c7_load_missing_config (fs : FS) (name : String)
    (hname : name ≠ "") (hcfg : configExists fs name = false) :
    load_persona fs (some name) =
      .error (.notFound ("Config not found for persona: " ++ name)) := by
  rcases hlk : lookupA (fs.root?.getD []) name with _ | e
  · simp [load_persona, hname, hlk]
  · rcases e with files | d
    · rcases hcj : lookupA files "config.json" with _ | fd
      · simp [load_persona, hname, hlk, hcj]
      · exfalso
        simp [configExists, hlk, hcj] at hcfg
    · simp [load_persona, hname, hlk]

/-- Witness for C7: a store with one unrelated persona, loading a name that
has no config on disk. -/
theorem c7_load_missing_config_witness :
    (("ghost" : String) ≠ "" ∧
     configExists ⟨some [("real", .dir [])], []⟩ "ghost" = false) ∧
    load_persona ⟨some [("real", .dir [])], []⟩ (some "ghost") =
      .error (.notFound ("Config not found for persona: " ++ "ghost")) :=
  ⟨⟨by decide, by decide⟩,
   c7_load_missing_config ⟨some [("real", .dir [])], []⟩ "ghost"
     (by decide) (by decide)⟩

/-- C8: loading with an absent or empty name is a no-op signal for every
filesystem state: no error is raised and the result does not depend on the
store at all, so no file access is involved. -/
theorem c8_falsy_name_noop (fs : FS) :
    load_persona fs none = .ok .noUpdate ∧
    load_persona fs (some "") = .ok .noUpdate :=
  ⟨rfl, rfl⟩

/-- Witness for C8 at a concrete store. -/
theorem c8_falsy_name_noop_witness :
    load_persona ⟨some [("p", .dir [])], []⟩ none = .ok .noUpdate ∧
    load_persona ⟨some [("p", .dir [])], []⟩ (some "") = .ok .noUpdate :=
  c8_falsy_name_noop ⟨some [("p", .dir [])], []⟩

/-- C9: the config record is written only after the audio copy succeeds, so
whenever the copy fails (missing source file or an I/O error, possibly after
writing partial audio bytes), the stored config.json of the persona is
exactly what it was before the save, and the save reports an error. -/
theorem c9_failed_copy_preserves_config (fs : FS) (co : CopyOutcome)
    (name ap : String) (p : Params)
    (hname : name ≠ "") (hap : ap ≠ "")
    (hfail : lookupA fs.src ap = none ∨ ∃ pb, co = .fail pb) :
    configOf (save_persona fs co name (some ap) p).2 name = configOf fs name ∧
    (save_persona fs co name (some ap) p).1.isSome = true := by
  have hne := referenceName_ne_config ap
  rcases hlk : lookupA (fs.root?.getD []) name with _ | e
  · rcases hsv : lookupA fs.src ap with _ | b
    · constructor
      · simp [save_persona, hname, hap, hlk, hsv, configOf, FS.readFile,
          lookupA_setA_self, lookupA]
      · simp [save_persona, hname, hap, hlk, hsv]
    · rcases hfail with hfail | ⟨pb, rfl⟩
      · rw [hfail] at hsv
        cases hsv
      · rcases pb with _ | part
        · constructor
          · simp [save_persona, hname, hap, hlk, hsv, configOf, FS.readFile,
              lookupA_setA_self, lookupA]
          · simp [save_persona, hname, hap, hlk, hsv]
        · constructor
          · simp [save_persona, hname, hap, hlk, hsv, configOf, FS.readFile,
              lookupA_setA_self, lookupA_setA_ne _ _ _ _ hne, lookupA, hne]
          · simp [save_persona, hname, hap, hlk, hsv]
  · rcases e with files | d
    · rcases hsv : lookupA fs.src ap with _ | b
      · constructor
        · simp [save_persona, hname, hap, hlk, hsv, configOf, FS.readFile,
            lookupA_setA_self, lookupA]
        · simp [save_persona, hname, hap, hlk, hsv]
      · rcases hfail with hfail | ⟨pb, rfl⟩
        · rw [hfail] at hsv
          cases hsv
        · rcases pb with _ | part
          · constructor
            · simp [save_persona, hname, hap, hlk, hsv, configOf, FS.readFile,
                lookupA_setA_self, lookupA]
            · simp [save_persona, hname, hap, hlk, hsv]
          · constructor
            · simp [save_persona, hname, hap, hlk, hsv, configOf, FS.readFile,
                lookupA_setA_self, lookupA_setA_ne _ _ _ _ hne, lookupA]
            · simp [save_persona, hname, hap, hlk, hsv]
    · constructor
      · simp [save_persona, hname, hap, hlk]
      · simp [save_persona, hname, hap, hlk]

/-- Witness for C9: an existing persona with a config record, a save whose
source audio path does not resolve; the stored config record is unchanged. -/
theorem c9_failed_copy_preserves_config_witness :
    (("p" : String) ≠ "" ∧ ("x.wav" : String) ≠ "" ∧
     (lookupA (FS.mk (some [("p", Entry.dir
         [("config.json", FileData.json [("top_p", JVal.num 2)])])]) []).src "x.wav" = none ∨
       ∃ pb, CopyOutcome.ok = CopyOutcome.fail pb)) ∧
    (configOf (save_persona (FS.mk (some [("p", Entry.dir
         [("config.json", FileData.json [("top_p", JVal.num 2)])])]) []) .ok "p"
        (some "x.wav") ⟨1, 1, 1, 1, 1, 1⟩).2 "p" =
      configOf (FS.mk (some [("p", Entry.dir
         [("config.json", FileData.json [("top_p", JVal.num 2)])])]) []) "p" ∧
     (save_persona (FS.mk (some [("p", Entry.dir
         [("config.json", FileData.json [("top_p", JVal.num 2)])])]) []) .ok "p"
        (some "x.wav") ⟨1, 1, 1, 1, 1, 1⟩).1.isSome = true) :=
  ⟨⟨by decide, by decide, Or.inl (by decide)⟩,
   c9_failed_copy_preserves_config (FS.mk (some [("p", Entry.dir
       [("config.json", FileData.json [("top_p", JVal.num 2)])])]) []) .ok "p"
     "x.wav" ⟨1, 1, 1, 1, 1, 1⟩ (by decide) (by decide) (Or.inl (by decide))⟩

/-- C10: the config record a successful save writes holds exactly the seven
documented keys in order, the six numeric fields with the saved values and
audio_filename equal to reference plus the source extension (wav fallback
when the source has none), so an immediate load reads every field from the
record and exercises no defaulting fallback. -/
theorem c10_saved_config_shape (fs : FS) (name ap : String) (b : Bytes) (p : Params)
    (hname : name ≠ "") (hap : ap ≠ "") (hwf : wfRoot fs = true)
    (hsrc : lookupA fs.src ap = some b) :
    configOf (save_persona fs .ok name (some ap) p).2 name =
      some (.json
        [("repetition_penalty", .num p.repetition_penalty),
         ("min_p", .num p.min_p),
         ("top_p", .num p.top_p),
         ("exaggeration", .num p.exaggeration),
         ("cfg_weight", .num p.cfg_weight),
         ("temperature", .num p.temperature),
         ("audio_filename", .str (referenceName ap))]) ∧
    load_persona (save_persona fs .ok name (some ap) p).2 (some name) =
      .ok (.loaded ⟨name, referenceName ap⟩ p.toRaw) := by
  have hne := referenceName_ne_config ap
  refine ⟨?_, (save_load_aux fs name ap b p hname hap hwf hsrc).2.1⟩
  rcases hlk : lookupA (fs.root?.getD []) name with _ | e
  · simp [save_persona, hname, hap, hlk, hsrc, configOf, FS.readFile,
      lookupA_setA_self, lookupA, setA, hne]
  · have hdir := lookupA_isDir hwf name e hlk
    rcases e with files | d
    · simp [save_persona, hname, hap, hlk, hsrc, configOf, FS.readFile,
        lookupA_setA_self]
    · simp [Entry.isDir] at hdir

/-- Witness for C10 with an extensionless source file, exercising the wav
fallback in the stored audio_filename. -/
theorem c10_saved_config_shape_witness :
    (("n" : String) ≠ "" ∧ ("clip" : String) ≠ "" ∧
     wfRoot ⟨none, [("clip", [9])]⟩ = true ∧
     lookupA (FS.mk none [("clip", [9])]).src "clip" = some [9]) ∧
    (configOf (save_persona ⟨none, [("clip", [9])]⟩ .ok "n" (some "clip")
        ⟨2, 0, 1, 0, 0, 1⟩).2 "n" =
      some (.json
        [("repetition_penalty", .num 2),
         ("min_p", .num 0),
         ("top_p", .num 1),
         ("exaggeration", .num 0),
         ("cfg_weight", .num 0),
         ("temperature", .num 1),
         ("audio_filename", .str (referenceName "clip"))]) ∧
     load_persona (save_persona ⟨none, [("clip", [9])]⟩ .ok "n" (some "clip")
        ⟨2, 0, 1, 0, 0, 1⟩).2 (some "n") =
      .ok (.loaded ⟨"n", referenceName "clip"⟩ (Params.toRaw ⟨2, 0, 1, 0, 0, 1⟩))) :=
  ⟨⟨by decide, by decide, by decide, by decide⟩,
   c10_saved_config_shape ⟨none, [("clip", [9])]⟩ "n" "clip" [9] ⟨2, 0, 1, 0, 0, 1⟩
     (by decide) (by decide) (by decide) (by decide)⟩
